import Mathlib

/-!
Verification of the bare-metal boot/bring-up sequencer in src/main.c of
STgaMe32. The definitions below are shallow embeddings of the C functions
in that file; machine integers are modelled as Nat with explicit reduction
modulo 2^32 where overflow matters. The serial-link driver (declared in
uart.h, implemented outside src/) is an external collaborator: the statuses
it returns and the completion flag it exposes are modelled by an
environment record, and its size-validation behaviour is modelled from the
spec where stated.
-/

-- ===================================================================
-- Compile-time constants (src/main.c:19-42)
-- ===================================================================

def CPU_FREQENCY : Nat := 48000000

def REF_FREQUENCY_DIV : Nat := 8

def SYSTICK_PERIOD_US : Nat := 10

def SYSTICK_FREQ : Nat := 1000000 / SYSTICK_PERIOD_US

def UART_BAUDRATE : Nat := 9600

def SRAM_SIZE : Nat := 0x00002000

def SRAM_VADDR : Nat := 0x20000000

def USER_OFFS : Nat := 0x00000400

def USER_START : Nat := SRAM_VADDR + USER_OFFS

def USER_STACK : Nat := SRAM_VADDR + SRAM_SIZE

def USER_API_PTR_ADDR : Nat := USER_START

def USER_EXEC_START : Nat := USER_START + 0x2

def USER_MAX_PROG_SIZE : Nat := SRAM_SIZE - USER_OFFS

/-- Size in bytes of the machine word (uint32_t) that run_code reads at
USER_API_PTR_ADDR (src/main.c:248). -/
def UINT32_SIZE : Nat := 4

/-- Modulus of the C type `unsigned` / `uint32_t` on this 32-bit target. -/
def UINT_MOD : Nat := 4294967296

/-- Value of the SWS field of RCC_CFGR indicating that the PLL is the
active SYSCLK source. The numeric value comes from inc/rcc.h, which is not
under src/; the concrete value (2 on this family) is irrelevant to the
claims, only its use as the compared-against constant matters. -/
def REG_RCC_CFGR_SWS_PLL : Nat := 2

-- ===================================================================
-- Clock Configurator: the spin-wait loops of board_clocking_init
-- (src/main.c:58-92)
-- ===================================================================

/-- Shallow embedding of a C loop `while (cond) continue;` polled against a
time-indexed condition: `cond i` is the value the polled expression reads at
the i-th iteration. Returns the poll index at which the loop exits (the
first index where the condition is false), or none if the fuel runs out
while the loop is still spinning. -/
def spin_while (cond : Nat → Bool) : Nat → Nat → Option Nat
  | 0, _ => none
  | fuel + 1, i => if cond i then spin_while cond fuel (i + 1) else some i

/-- Wait loop (1) of board_clocking_init (src/main.c:62-63):
`while (CHECK_BIT(REG_RCC_CR, REG_RCC_CR_HSERDY)) continue;`.
CHECK_BIT comes from inc/modregs.h, which is not under src/; it is modelled
as testing that the named bit is set (its conventional meaning, consistent
with the sibling SET_BIT used two lines above). `hserdy i` is the value of
the HSERDY flag at the i-th poll. -/
def hse_ready_wait (hserdy : Nat → Bool) (fuel : Nat) : Option Nat :=
  spin_while hserdy fuel 0

/-- Wait loop (5) of board_clocking_init (src/main.c:78-79):
`while (CHECK_BIT(REG_RCC_CR, REG_RCC_CR_PLLRDY)) continue;`, with
`pllrdy i` the value of the PLLRDY flag at the i-th poll. -/
def pll_ready_wait (pllrdy : Nat → Bool) (fuel : Nat) : Option Nat :=
  spin_while pllrdy fuel 0

/-- Wait loop (7) of board_clocking_init (src/main.c:87-88):
`while (GET_REG_RCC_CFGR_SWS() != REG_RCC_CFGR_SWS_PLL) continue;`, with
`sws i` the value of the SWS field at the i-th poll. -/
def sws_switch_wait (sws : Nat → Nat) (fuel : Nat) : Option Nat :=
  spin_while (fun i => !(sws i == REG_RCC_CFGR_SWS_PLL)) fuel 0

-- ===================================================================
-- Heartbeat Monitor: reload computation of systick_init
-- (src/main.c:98-147)
-- ===================================================================

/-- Source-clock selection of systick_init (src/main.c:100-107): the CPU
frequency, divided by REF_FREQUENCY_DIV when the reference clock is
available. `noref` is the value read by SYSTICK_GET_NOREF() (inc/systick.h,
not under src/, modelled as returning the NOREF calibration flag): the
reference clock is available exactly when it is zero. -/
def systick_src_freq (noref : Nat) : Nat :=
  if noref = 0 then CPU_FREQENCY / REF_FREQUENCY_DIV else CPU_FREQENCY

/-- Reload value computed by systick_init (src/main.c:109-130). `skew` is
the value read by SYSTICK_GET_SKEW() (the SKEW calibration flag, from
inc/systick.h which is not under src/). Note that the source assigns
`calib_value = SYSTICK_GET_SKEW()` (src/main.c:122) inside the branch
guarded by `!SYSTICK_GET_SKEW()`, so the embedded exact branch multiplies
by `skew` itself, exactly as the source does. -/
def systick_reload (period_us skew noref : Nat) : Nat :=
  if skew = 0 then
    if noref = 0 then skew * period_us
    else skew * period_us * REF_FREQUENCY_DIV
  else
    period_us * (systick_src_freq noref / 1000000)

/-- Value written to the SYST_RVR register by systick_init
(src/main.c:133): `reload_value - 1U` with uint32 wraparound. -/
def systick_rvr (period_us skew noref : Nat) : Nat :=
  (systick_reload period_us skew noref + UINT_MOD - 1) % UINT_MOD

/-- Reload formula as the spec states it (spec 4.2, restated in the claim):
with the platform calibration value `tenms` (the TENMS field, 6000 on this
part per the NOTE at src/main.c:115-120) when the calibration value is
exact (skew = 0), reload = tenms * period, additionally multiplied by
REF_FREQUENCY_DIV when the reference source is not available; when inexact,
reload = period * (effective source frequency / 1000000). This definition
follows the words of the spec and is compared against systick_reload, which
is translated from the source. -/
def systick_reload_spec (period_us tenms skew noref : Nat) : Nat :=
  if skew = 0 then
    if noref = 0 then tenms * period_us
    else tenms * period_us * REF_FREQUENCY_DIV
  else
    period_us * (systick_src_freq noref / 1000000)

-- ===================================================================
-- Heartbeat Monitor: the tick interrupt handler systick_handler
-- (src/main.c:171-191)
-- ===================================================================

/-- Interrupt-context state of the Heartbeat Monitor: the two static
variables of systick_handler (handler_ticks, led_is_on) and the blue LED
pin driven through GPIO_BSRR_SET_PIN / GPIO_BRR_RESET_PIN. -/
structure HbState where
  handler_ticks : Nat
  led_is_on : Bool
  blue_pin : Bool

/-- One invocation of systick_handler (src/main.c:171-191): increment the
tick counter (a C `unsigned`, hence modulo 2^32) and, when the new counter
is a multiple of SYSTICK_FREQ, toggle led_is_on and drive the blue LED pin
accordingly. -/
def systick_handler (s : HbState) : HbState :=
  if ((s.handler_ticks + 1) % UINT_MOD) % SYSTICK_FREQ = 0 then
    if s.led_is_on = false then
      ⟨(s.handler_ticks + 1) % UINT_MOD, true, true⟩
    else
      ⟨(s.handler_ticks + 1) % UINT_MOD, false, false⟩
  else
    ⟨(s.handler_ticks + 1) % UINT_MOD, s.led_is_on, s.blue_pin⟩

/-- Initial heartbeat state: both static variables start at their C static
initializers (0 and false); the LED pin starts low after reset. -/
def hb_init : HbState := ⟨0, false, false⟩

/-- Heartbeat state after n invocations of the tick handler. -/
def hbIter (n : Nat) : HbState := (systick_handler)^[n] hb_init

/-- The indicator toggles at invocation n: the led state after the n-th
invocation differs from the state before it. -/
def hbToggles (n : Nat) : Prop :=
  (hbIter n).led_is_on ≠ (hbIter (n - 1)).led_is_on

-- ===================================================================
-- Execution Handoff: run_code (src/main.c:246-256)
-- ===================================================================

/-- Little-endian 32-bit read of the machine word at `addr`, as performed
by the Cortex-M0 load in `*((uint32_t*) USER_API_PTR_ADDR)`
(src/main.c:248). `mem` maps byte addresses to byte values. -/
def read_word32 (mem : Nat → Nat) (addr : Nat) : Nat :=
  mem addr + 256 * mem (addr + 1) + 65536 * mem (addr + 2) +
    16777216 * mem (addr + 3)

/-- Byte-for-byte store of the list `bs` at consecutive addresses starting
at `a`, as performed by the aggregate copy `*api_guest = API_host`
(src/main.c:249). -/
def write_bytes : (Nat → Nat) → Nat → List Nat → (Nat → Nat)
  | mem, _, [] => mem
  | mem, a, b :: bs => write_bytes (fun x => if x = a then b else mem x) (a + 1) bs

/-- Control phases of run_code (src/main.c:246-256): about to execute the
handoff body; control transferred to USER_EXEC_START; and the trailing
`while (1) continue;` reached after the loaded routine returned. -/
inductive RcPhase where
  | entry
  | jumped
  | looping

/-- Machine state seen by run_code: memory, the active stack pointer and
the (optional) address control was transferred to. -/
structure RcState where
  phase : RcPhase
  mem : Nat → Nat
  sp : Nat
  pc : Option Nat

/-- One step of run_code (src/main.c:246-256). From `entry`, the handoff
body runs: the word at USER_API_PTR_ADDR is read from the current memory,
the host service table bytes `api_host` are copied to that address, the
stack pointer is set to USER_STACK and control is transferred to
USER_EXEC_START. From `jumped` (the loaded routine returned), the trailing
`while (1)` loop is entered; `looping` steps to itself forever. -/
def run_code_step (api_host : List Nat) (s : RcState) : RcState :=
  match s.phase with
  | RcPhase.entry =>
      ⟨RcPhase.jumped,
       write_bytes s.mem (read_word32 s.mem USER_API_PTR_ADDR) api_host,
       USER_STACK, some USER_EXEC_START⟩
  | RcPhase.jumped => ⟨RcPhase.looping, s.mem, s.sp, s.pc⟩
  | RcPhase.looping => ⟨RcPhase.looping, s.mem, s.sp, s.pc⟩

-- ===================================================================
-- Serial link environment and the boot sequence
-- (src/main.c:197-240 and 262-280)
-- ===================================================================

/-- Environment supplied by the serial-link driver (uart.h; its
implementation is an external collaborator outside src/): the statuses
returned by uart_setup, uart_receive_enable and uart_recv_buffer, the
value of is_recv_complete() at each poll of the busy-wait loop, and the
bytes the completed reception deposits in the loadable region. -/
structure BootEnv where
  setup_err : Int
  recv_enable_err : Int
  recv_buffer_err : Int
  recv_complete : Nat → Bool
  incoming : Nat → Nat

/-- Count of serial-link operations the host has performed, plus the
(address, length) arguments of every uart_recv_buffer call. -/
structure SerialState where
  setup_count : Nat
  recv_enable_count : Nat
  tx_enable_count : Nat
  send_count : Nat
  recv_requests : List (Nat × Nat)

/-- Serial operation counts before main runs: nothing performed yet. -/
def serial0 : SerialState := ⟨0, 0, 0, 0, []⟩

/-- Embedding of uart_init (src/main.c:197-218): call uart_setup and
propagate a negative status; otherwise call uart_receive_enable and
propagate a negative status; otherwise return 0. The uart_transmit_enable
call is commented out in the source and therefore absent here. -/
def uart_init (env : BootEnv) (s : SerialState) : Int × SerialState :=
  if env.setup_err < 0 then
    (env.setup_err,
     ⟨s.setup_count + 1, s.recv_enable_count, s.tx_enable_count,
      s.send_count, s.recv_requests⟩)
  else if env.recv_enable_err < 0 then
    (env.recv_enable_err,
     ⟨s.setup_count + 1, s.recv_enable_count + 1, s.tx_enable_count,
      s.send_count, s.recv_requests⟩)
  else
    (0,
     ⟨s.setup_count + 1, s.recv_enable_count + 1, s.tx_enable_count,
      s.send_count, s.recv_requests⟩)

/-- Embedding of run_tests (src/main.c:286-334): the entire body is
commented out in the source, so it performs no serial operation and
returns 0. -/
def run_tests (s : SerialState) : Int × SerialState := (0, s)

/-- Busy-poll loop `while (is_recv_complete() == false) continue;`
(src/main.c:230-231): returns the poll index at which completion was first
observed, or none if the fuel runs out with the loop still spinning. -/
def poll_recv (compl : Nat → Bool) : Nat → Nat → Option Nat
  | 0, _ => none
  | fuel + 1, i => if compl i then some i else poll_recv compl fuel (i + 1)

/-- Bytes of a completed reception of `len` bytes written at `base`: inside
the written range the incoming stream is visible, elsewhere memory is
unchanged. -/
def write_region (mem : Nat → Nat) (base len : Nat) (incoming : Nat → Nat) :
    Nat → Nat :=
  fun a => if base ≤ a ∧ a < base + len then incoming (a - base) else mem a

/-- Result of receive_code: the returned status (none while the busy-poll
is still spinning), the serial operation record, and memory afterwards. -/
structure RecvOut where
  ret : Option Int
  serial : SerialState
  mem : Nat → Nat

/-- Embedding of receive_code (src/main.c:224-240): call
`uart_recv_buffer(uart, (void*) USER_START, USER_MAX_PROG_SIZE)`; a
negative status is propagated; otherwise busy-poll is_recv_complete() and
return 0 once it reads true. Memory shows the received bytes only once the
reception has completed. -/
def receive_code (env : BootEnv) (fuel : Nat) (s : SerialState)
    (mem : Nat → Nat) : RecvOut :=
  if env.recv_buffer_err < 0 then
    ⟨some env.recv_buffer_err,
     ⟨s.setup_count, s.recv_enable_count, s.tx_enable_count, s.send_count,
      s.recv_requests ++ [(USER_START, USER_MAX_PROG_SIZE)]⟩,
     mem⟩
  else
    match poll_recv env.recv_complete fuel 0 with
    | none =>
        ⟨none,
         ⟨s.setup_count, s.recv_enable_count, s.tx_enable_count,
          s.send_count, s.recv_requests ++ [(USER_START, USER_MAX_PROG_SIZE)]⟩,
         mem⟩
    | some _ =>
        ⟨some 0,
         ⟨s.setup_count, s.recv_enable_count, s.tx_enable_count,
          s.send_count, s.recv_requests ++ [(USER_START, USER_MAX_PROG_SIZE)]⟩,
         write_region mem USER_START USER_MAX_PROG_SIZE env.incoming⟩

/-- Outcome of a run of main (src/main.c:262-280): the returned exit
status (none when main never returns, either because the handoff was
reached or because a busy-poll is still spinning), whether run_code was
reached, whether the receive busy-poll is still spinning, whether SysTick
is still enabled, the serial operation record, memory, and whether the
self-test stage was entered. -/
structure BootOut where
  exit : Option Int
  handoff : Bool
  spinning : Bool
  systick_enabled : Bool
  serial : SerialState
  mem : Nat → Nat
  self_test_ran : Bool

/-- Embedding of main (src/main.c:262-280): board_clocking_init,
board_gpio_init and systick_init run first (systick_init ends with
SYSTICK_EXC_ENABLE and SYSTICK_ENABLE, so SysTick is enabled from then on
and nothing later disables it); then uart_init, run_tests and receive_code
run in order, each negative status being returned immediately; finally
run_code is reached and main never returns. -/
def mainBoot (env : BootEnv) (fuel : Nat) (mem0 : Nat → Nat) : BootOut :=
  if (uart_init env serial0).1 < 0 then
    ⟨some (uart_init env serial0).1, false, false, true,
     (uart_init env serial0).2, mem0, false⟩
  else if (run_tests (uart_init env serial0).2).1 < 0 then
    ⟨some (run_tests (uart_init env serial0).2).1, false, false, true,
     (run_tests (uart_init env serial0).2).2, mem0, true⟩
  else if (receive_code env fuel (run_tests (uart_init env serial0).2).2 mem0).ret
      = none then
    ⟨none, false, true, true,
     (receive_code env fuel (run_tests (uart_init env serial0).2).2 mem0).serial,
     (receive_code env fuel (run_tests (uart_init env serial0).2).2 mem0).mem,
     true⟩
  else if ((receive_code env fuel (run_tests (uart_init env serial0).2).2 mem0).ret.getD 0)
      < 0 then
    ⟨(receive_code env fuel (run_tests (uart_init env serial0).2).2 mem0).ret,
     false, false, true,
     (receive_code env fuel (run_tests (uart_init env serial0).2).2 mem0).serial,
     (receive_code env fuel (run_tests (uart_init env serial0).2).2 mem0).mem,
     true⟩
  else
    ⟨none, true, false, true,
     (receive_code env fuel (run_tests (uart_init env serial0).2).2 mem0).serial,
     (receive_code env fuel (run_tests (uart_init env serial0).2).2 mem0).mem,
     true⟩

/-- Status-propagation skeleton of main (src/main.c:262-280), with the
results of the three checked stages (uart_init, run_tests, receive_code)
abstracted as parameters: each stage result is tested with `if (err < 0)
return err;` in order, and none means all checks passed (run_code is
reached and main never returns). -/
def boot_seq_status (link_setup self_test receive : Int) : Option Int :=
  if link_setup < 0 then some link_setup
  else if self_test < 0 then some self_test
  else if receive < 0 then some receive
  else none

-- ===================================================================
-- Code Loader size validation, modelled from the spec (for requests of
-- a size the source never exercises)
-- ===================================================================

/-- Modelled from the spec: the size-validated reception request of the
Code Loader. The serial driver uart_recv_buffer is declared in uart.h but
its implementation is not under src/ (only its caller receive_code is,
and that caller always requests exactly USER_MAX_PROG_SIZE bytes), so the
behaviour for an arbitrary requested size S follows the words of spec
section 4.4: requesting more than the maximum size is rejected with a
negative status before any transfer is initiated, leaving memory
untouched; otherwise the transfer of S bytes into the loadable region is
initiated and, once complete, deposits the incoming bytes there. -/
def receive_request (S : Nat) (mem incoming : Nat → Nat) :
    Int × (Nat → Nat) :=
  if USER_MAX_PROG_SIZE < S then (-1, mem)
  else (0, write_region mem USER_START S incoming)

-- ===================================================================
-- Concrete inputs used by the witnesses
-- ===================================================================

/-- All-zero memory, used as a concrete initial memory by witnesses. -/
def memZero : Nat → Nat := fun _ => 0

/-- Concrete environment whose uart_setup fails with status -3. -/
def envSetupFail : BootEnv := ⟨-3, 0, 0, fun _ => true, fun _ => 0⟩

/-- Concrete environment whose uart_recv_buffer fails with status -7. -/
def envRecvFail : BootEnv := ⟨0, 0, -7, fun _ => true, fun _ => 0⟩

/-- Concrete environment in which every serial operation succeeds and the
reception completes at the first poll. -/
def envOK : BootEnv := ⟨0, 0, 0, fun _ => true, fun _ => 0⟩

-- ===================================================================
-- Helper lemmas
-- ===================================================================

lemma spin_while_exits_false (cond : Nat → Bool) :
    ∀ (fuel i j : Nat), spin_while cond fuel i = some j → cond j = false := by
  intro fuel
  induction fuel with
  | zero => intro i j h; simp [spin_while] at h
  | succ f ih =>
    intro i j h
    by_cases hc : cond i
    · rw [spin_while, if_pos hc] at h
      exact ih (i + 1) j h
    · rw [spin_while, if_neg hc] at h
      cases h
      simpa using hc

lemma poll_recv_some (c : Nat → Bool) :
    ∀ (fuel i j : Nat), poll_recv c fuel i = some j → c j = true := by
  intro fuel
  induction fuel with
  | zero => intro i j h; simp [poll_recv] at h
  | succ f ih =>
    intro i j h
    by_cases hc : c i
    · rw [poll_recv, if_pos hc] at h
      cases h
      exact hc
    · rw [poll_recv, if_neg hc] at h
      exact ih (i + 1) j h

lemma write_bytes_lower : ∀ (bs : List Nat) (mem : Nat → Nat) (a x : Nat),
    x < a → write_bytes mem a bs x = mem x := by
  intro bs
  induction bs with
  | nil => intro mem a x _; rfl
  | cons b bs ih =>
    intro mem a x h
    rw [write_bytes, ih _ (a + 1) x (by omega)]
    simp [Nat.ne_of_lt h]

lemma write_bytes_get : ∀ (bs : List Nat) (mem : Nat → Nat) (a i : Nat)
    (h : i < bs.length), write_bytes mem a bs (a + i) = bs.get ⟨i, h⟩ := by
  intro bs
  induction bs with
  | nil => intro mem a i h; simp at h
  | cons b bs ih =>
    intro mem a i h
    cases i with
    | zero =>
      rw [write_bytes, write_bytes_lower bs _ (a + 1) (a + 0) (by omega)]
      simp
    | succ j =>
      have hj : j < bs.length := by
        simpa [Nat.succ_lt_succ_iff] using h
      have harith : a + (j + 1) = (a + 1) + j := by omega
      rw [write_bytes, harith, ih _ (a + 1) j hj]
      simp

lemma hbIter_succ (n : Nat) : hbIter (n + 1) = systick_handler (hbIter n) := by
  simp [hbIter, Function.iterate_succ_apply']

lemma systick_handler_ticks (s : HbState) :
    (systick_handler s).handler_ticks = (s.handler_ticks + 1) % UINT_MOD := by
  unfold systick_handler
  by_cases h : ((s.handler_ticks + 1) % UINT_MOD) % SYSTICK_FREQ = 0
  · rw [if_pos h]
    by_cases h2 : s.led_is_on = false
    · rw [if_pos h2]
    · rw [if_neg h2]
  · rw [if_neg h]

lemma hb_ticks (n : Nat) : (hbIter n).handler_ticks = n % UINT_MOD := by
  induction n with
  | zero => simp [hbIter, hb_init]
  | succ n ih =>
    rw [hbIter_succ, systick_handler_ticks, ih]
    simp only [UINT_MOD]
    omega

lemma sf_eq : SYSTICK_FREQ = 100000 := by decide

lemma hb_led_parity : ∀ n, n < UINT_MOD →
    ((hbIter n).led_is_on = true ↔ (n / SYSTICK_FREQ) % 2 = 1) := by
  intro n
  induction n with
  | zero =>
    intro _
    simp [hbIter, hb_init]
  | succ n ih =>
    intro hlt
    have hn : n < UINT_MOD := Nat.lt_of_succ_lt hlt
    have hih := ih hn
    rw [hbIter_succ]
    unfold systick_handler
    rw [hb_ticks n, Nat.mod_eq_of_lt hn, Nat.mod_eq_of_lt hlt]
    by_cases h : (n + 1) % SYSTICK_FREQ = 0
    · rw [if_pos h]
      have hdiv : (n + 1) / SYSTICK_FREQ = n / SYSTICK_FREQ + 1 := by
        rw [sf_eq] at h ⊢
        omega
      by_cases hb : (hbIter n).led_is_on = false
      · rw [if_pos hb]
        rw [hb] at hih
        simp only [hdiv]
        simp only [Bool.false_eq_true, false_iff] at hih
        constructor
        · intro _; omega
        · intro _; trivial
      · rw [if_neg hb]
        have hb' : (hbIter n).led_is_on = true := by
          cases hx : (hbIter n).led_is_on
          · exact absurd hx hb
          · rfl
        rw [hb'] at hih
        simp only [true_iff] at hih
        simp only [hdiv]
        constructor
        · intro hc; simp at hc
        · intro hc; exfalso; omega
    · rw [if_neg h]
      have hdiv : (n + 1) / SYSTICK_FREQ = n / SYSTICK_FREQ := by
        rw [sf_eq] at h ⊢
        omega
      rw [hdiv]
      exact hih

lemma hb_toggle_iff (n : Nat) (h : 1 ≤ n) :
    hbToggles n ↔ (n % UINT_MOD) % SYSTICK_FREQ = 0 := by
  obtain ⟨m, rfl⟩ : ∃ m, n = m + 1 := ⟨n - 1, by omega⟩
  unfold hbToggles
  simp only [Nat.add_sub_cancel]
  rw [hbIter_succ]
  unfold systick_handler
  rw [hb_ticks m]
  have hmod : ((m % UINT_MOD) + 1) % UINT_MOD = (m + 1) % UINT_MOD := by
    simp only [UINT_MOD]
    omega
  rw [hmod]
  by_cases h1 : ((m + 1) % UINT_MOD) % SYSTICK_FREQ = 0
  · rw [if_pos h1]
    by_cases hb : (hbIter m).led_is_on = false
    · rw [if_pos hb]
      simp [hb, h1]
    · rw [if_neg hb]
      have hb' : (hbIter m).led_is_on = true := by
        cases hx : (hbIter m).led_is_on
        · exact absurd hx hb
        · rfl
      simp [hb', h1]
  · rw [if_neg h1]
    simp [h1]

lemma hb_pin_eq_led (n : Nat) : (hbIter n).blue_pin = (hbIter n).led_is_on := by
  induction n with
  | zero => rfl
  | succ n ih =>
    rw [hbIter_succ]
    unfold systick_handler
    by_cases h : (((hbIter n).handler_ticks + 1) % UINT_MOD) % SYSTICK_FREQ = 0
    · rw [if_pos h]
      by_cases hb : (hbIter n).led_is_on = false
      · rw [if_pos hb]
      · rw [if_neg hb]
    · rw [if_neg h]
      exact ih

-- ===================================================================
-- Claim theorems
-- ===================================================================

/-- C1: the claim states that every readiness spin-wait of the Clock
Configurator completes only when the awaited condition holds. The code
contradicts this: the HSE-ready and PLL-ready loops poll with
`while (CHECK_BIT(...)) continue;`, which exits as soon as the flag reads
0, so with the flag never set the wait completes immediately at poll 0
(first two conjuncts), while with the flag always set the wait spins
forever (third conjunct, no exit within any fuel shown here at fuel 5).
Only the SYSCLK-switch wait is polarized correctly: with the switch
confirmed from the start it completes at poll 0 (last conjunct). -/
theorem C1_ready_waits_inverted :
    hse_ready_wait (fun _ => false) 5 = some 0
    ∧ pll_ready_wait (fun _ => false) 5 = some 0
    ∧ hse_ready_wait (fun _ => true) 5 = none
    ∧ sws_switch_wait (fun _ => REG_RCC_CFGR_SWS_PLL) 5 = some 0 := by
  decide

/-- C2: the claim states that the reload value equals the spec formulas,
in particular reload = calibration_value * period in the exact branch. The
code instead loads calib_value from the SKEW flag, which is 0 whenever
that branch is taken, so the computed reload is 0 for every period and
every NOREF value, differing from the spec formula with the platform
calibration value 6000 (and making the RVR write underflow to 2^32 - 1);
the inexact branch does match the spec formula. -/
theorem C2_reload_exact_branch_mismatch :
    (∀ p noref, systick_reload p 0 noref = 0)
    ∧ systick_reload SYSTICK_PERIOD_US 0 0 = 0
    ∧ systick_reload_spec SYSTICK_PERIOD_US 6000 0 0 = 60000
    ∧ systick_reload SYSTICK_PERIOD_US 0 0 ≠
        systick_reload_spec SYSTICK_PERIOD_US 6000 0 0
    ∧ systick_rvr SYSTICK_PERIOD_US 0 0 = 4294967295
    ∧ systick_reload SYSTICK_PERIOD_US 1 0 =
        systick_reload_spec SYSTICK_PERIOD_US 6000 1 0
    ∧ systick_reload SYSTICK_PERIOD_US 1 5 =
        systick_reload_spec SYSTICK_PERIOD_US 6000 1 5 := by
  refine ⟨?_, by decide, by decide, by decide, by decide, by decide, by decide⟩
  intro p noref
  unfold systick_reload
  by_cases h : noref = 0
  · simp [h]
  · simp [h]

/-- C3 counterexample: the claim states that the entry-point offset is at
least the size of the machine word read at the region base, so that the
entry point does not lie inside the pointer word. On the code the offset
is USER_EXEC_START - USER_START = 2, which is smaller than the 4-byte
uint32 word, and the entry point address lies strictly inside the pointer
word at the base. -/
theorem C3_counterexample :
    ¬ (UINT32_SIZE ≤ USER_EXEC_START - USER_START)
    ∧ USER_API_PTR_ADDR ≤ USER_EXEC_START
    ∧ USER_EXEC_START < USER_API_PTR_ADDR + UINT32_SIZE := by
  decide

/-- C3 (amended): execution of the loaded program begins at the fixed
offset 2 from the loadable region base; that offset is smaller than the
4-byte machine word read at the base, so the entry point lies inside the
pointer word (at its byte 2) rather than past it. -/
theorem C3_entry_offset :
    USER_EXEC_START = USER_START + 2
    ∧ USER_EXEC_START - USER_START < UINT32_SIZE
    ∧ USER_API_PTR_ADDR = USER_START
    ∧ USER_EXEC_START < USER_API_PTR_ADDR + UINT32_SIZE := by
  decide

/-- C4: the Execution Handoff reads the word at the loadable region base
from the pre-copy memory and interprets it as the guest service-table
address; after the handoff step the bytes at that address equal the host
service-table bytes exactly; the stack pointer is set to USER_STACK and
control is transferred to USER_EXEC_START; and the machine never returns
to the caller: a return from the loaded routine enters the idle loop,
which steps to itself forever. -/
theorem C4_execution_handoff (api_host : List Nat) (mem : Nat → Nat)
    (sp0 : Nat) (pc0 : Option Nat) :
    (∀ i (h : i < api_host.length),
       (run_code_step api_host ⟨RcPhase.entry, mem, sp0, pc0⟩).mem
         (read_word32 mem USER_API_PTR_ADDR + i) = api_host.get ⟨i, h⟩)
    ∧ (run_code_step api_host ⟨RcPhase.entry, mem, sp0, pc0⟩).sp = USER_STACK
    ∧ (run_code_step api_host ⟨RcPhase.entry, mem, sp0, pc0⟩).pc =
        some USER_EXEC_START
    ∧ (run_code_step api_host ⟨RcPhase.entry, mem, sp0, pc0⟩).phase =
        RcPhase.jumped
    ∧ (∀ m sp pc, run_code_step api_host ⟨RcPhase.jumped, m, sp, pc⟩ =
        ⟨RcPhase.looping, m, sp, pc⟩)
    ∧ (∀ n m sp pc, (run_code_step api_host)^[n]
        ⟨RcPhase.looping, m, sp, pc⟩ = ⟨RcPhase.looping, m, sp, pc⟩) := by
  refine ⟨?_, rfl, rfl, rfl, fun m sp pc => rfl, ?_⟩
  · intro i h
    exact write_bytes_get api_host mem (read_word32 mem USER_API_PTR_ADDR) i h
  · intro n
    induction n with
    | zero => intro m sp pc; rfl
    | succ k ih =>
      intro m sp pc
      rw [Function.iterate_succ_apply]
      have hstep : run_code_step api_host ⟨RcPhase.looping, m, sp, pc⟩ =
          ⟨RcPhase.looping, m, sp, pc⟩ := rfl
      rw [hstep]
      exact ih m sp pc

/-- C4 witness: with the two-byte host table [5, 6] and all-zero memory,
the guest address read at the base is 0 and the byte copied to address 1
is 6; the stack pointer and entry point are as configured. -/
theorem C4_execution_handoff_witness :
    (run_code_step [5, 6] ⟨RcPhase.entry, memZero, 0, none⟩).mem
      (read_word32 memZero USER_API_PTR_ADDR + 1) = 6
    ∧ (run_code_step [5, 6] ⟨RcPhase.entry, memZero, 0, none⟩).sp =
        USER_STACK := by
  have h := C4_execution_handoff [5, 6] memZero 0 none
  exact ⟨h.1 1 (by decide), h.2.1⟩

/-- C6: the liveness indicator toggles at invocation n exactly when the
(wrapped) tick counter value n mod 2^32 is a multiple of SYSTICK_FREQ and
never otherwise; the indicator starts off; before the counter wraps the
indicator state has the deterministic parity of n / SYSTICK_FREQ, so the
first toggle (at invocation SYSTICK_FREQ) sets the indicator on; and the
LED pin always equals the indicator state. -/
theorem C6_liveness_toggle (n : Nat) (h1 : 1 ≤ n) :
    (hbToggles n ↔ (n % UINT_MOD) % SYSTICK_FREQ = 0)
    ∧ hb_init.led_is_on = false
    ∧ (n < UINT_MOD →
        ((hbIter n).led_is_on = true ↔ (n / SYSTICK_FREQ) % 2 = 1))
    ∧ (hbIter SYSTICK_FREQ).led_is_on = true
    ∧ (hbIter n).blue_pin = (hbIter n).led_is_on := by
  refine ⟨hb_toggle_iff n h1, rfl, fun h => hb_led_parity n h, ?_,
    hb_pin_eq_led n⟩
  have h := hb_led_parity SYSTICK_FREQ (by decide)
  exact h.mpr (by decide)

/-- C6 witness: the first invocation at which the counter reaches
SYSTICK_FREQ toggles the indicator, and the indicator is then on. -/
theorem C6_liveness_toggle_witness :
    hbToggles SYSTICK_FREQ ∧ (hbIter SYSTICK_FREQ).led_is_on = true := by
  have h := C6_liveness_toggle SYSTICK_FREQ (by decide)
  exact ⟨h.1.mpr (by decide), h.2.2.2.1⟩

lemma uart_init_counts (env : BootEnv) (s : SerialState) :
    ((uart_init env s).2).tx_enable_count = s.tx_enable_count
    ∧ ((uart_init env s).2).send_count = s.send_count
    ∧ ((uart_init env s).2).recv_requests = s.recv_requests := by
  unfold uart_init
  by_cases h1 : env.setup_err < 0
  · rw [if_pos h1]
    exact ⟨rfl, rfl, rfl⟩
  · rw [if_neg h1]
    by_cases h2 : env.recv_enable_err < 0
    · rw [if_pos h2]
      exact ⟨rfl, rfl, rfl⟩
    · rw [if_neg h2]
      exact ⟨rfl, rfl, rfl⟩

lemma receive_code_serial (env : BootEnv) (fuel : Nat) (s : SerialState)
    (mem : Nat → Nat) :
    (receive_code env fuel s mem).serial =
      ⟨s.setup_count, s.recv_enable_count, s.tx_enable_count, s.send_count,
       s.recv_requests ++ [(USER_START, USER_MAX_PROG_SIZE)]⟩ := by
  unfold receive_code
  by_cases h : env.recv_buffer_err < 0
  · rw [if_pos h]
  · rw [if_neg h]
    cases poll_recv env.recv_complete fuel 0 with
    | none => exact rfl
    | some j => exact rfl

/-- C5: in the status-check skeleton of main, a negative link-setup status
is returned as is, a negative self-test status is returned as is when
link setup passed, and a negative reception status is returned as is when
both earlier stages passed; correspondingly, on the full boot embedding a
failing uart_init makes main return that very status with the self-test
stage never entered, no receive request issued and no handoff, and a
failing uart_recv_buffer makes main return that very status with no
handoff. -/
theorem C5_abort_propagation (env : BootEnv) (fuel : Nat) (m : Nat → Nat)
    (s t r : Int) :
    (s < 0 → boot_seq_status s t r = some s)
    ∧ (0 ≤ s → t < 0 → boot_seq_status s t r = some t)
    ∧ (0 ≤ s → 0 ≤ t → r < 0 → boot_seq_status s t r = some r)
    ∧ ((uart_init env serial0).1 < 0 →
        (mainBoot env fuel m).exit = some (uart_init env serial0).1
        ∧ (mainBoot env fuel m).handoff = false
        ∧ (mainBoot env fuel m).self_test_ran = false
        ∧ (mainBoot env fuel m).serial.recv_requests = [])
    ∧ (¬ (uart_init env serial0).1 < 0 → env.recv_buffer_err < 0 →
        (mainBoot env fuel m).exit = some env.recv_buffer_err
        ∧ (mainBoot env fuel m).handoff = false) := by
  refine ⟨?_, ?_, ?_, ?_, ?_⟩
  · intro h
    unfold boot_seq_status
    rw [if_pos h]
  · intro h1 h2
    unfold boot_seq_status
    rw [if_neg (by omega), if_pos h2]
  · intro h1 h2 h3
    unfold boot_seq_status
    rw [if_neg (by omega), if_neg (by omega), if_pos h3]
  · intro h
    unfold mainBoot
    rw [if_pos h]
    exact ⟨rfl, rfl, rfl, (uart_init_counts env serial0).2.2⟩
  · intro h1 h2
    have hu : ¬ (run_tests (uart_init env serial0).2).1 < 0 := by
      norm_num [run_tests]
    have hrc : (receive_code env fuel (run_tests (uart_init env serial0).2).2 m).ret
        = some env.recv_buffer_err := by
      unfold receive_code
      rw [if_pos h2]
    unfold mainBoot
    rw [if_neg h1, if_neg hu, hrc]
    rw [if_neg (by simp : ¬ (some env.recv_buffer_err = (none : Option Int)))]
    rw [if_pos (show (some env.recv_buffer_err).getD 0 < 0 from h2)]
    exact ⟨rfl, rfl⟩

/-- C5 witness: instantiating the status skeleton and the boot embedding
at concrete failing statuses. -/
theorem C5_abort_propagation_witness :
    boot_seq_status (-1) 7 7 = some (-1)
    ∧ boot_seq_status 0 (-2) 7 = some (-2)
    ∧ boot_seq_status 0 0 (-3) = some (-3)
    ∧ (mainBoot envSetupFail 1 memZero).exit = some (-3)
    ∧ (mainBoot envRecvFail 1 memZero).exit = some (-7) := by
  refine ⟨(C5_abort_propagation envSetupFail 1 memZero (-1) 7 7).1 (by decide),
    (C5_abort_propagation envSetupFail 1 memZero 0 (-2) 7).2.1 (by decide)
      (by decide),
    (C5_abort_propagation envSetupFail 1 memZero 0 0 (-3)).2.2.1 (by decide)
      (by decide) (by decide), ?_, ?_⟩
  · have h := (C5_abort_propagation envSetupFail 1 memZero 0 0 0).2.2.2.1
      (by decide)
    have e : (uart_init envSetupFail serial0).1 = -3 := by decide
    rw [e] at h
    exact h.1
  · have h := (C5_abort_propagation envRecvFail 1 memZero 0 0 0).2.2.2.2
      (by decide) (by decide)
    exact h.1

/-- C7: if uart_setup returns a negative status, main returns that very
status; SysTick remains enabled on that path; no receive request is ever
issued; and no byte of memory (in particular of the loadable region) is
modified. -/
theorem C7_setup_failure_keeps_heartbeat (env : BootEnv) (fuel : Nat)
    (m : Nat → Nat) (h : env.setup_err < 0) :
    (mainBoot env fuel m).exit = some env.setup_err
    ∧ (mainBoot env fuel m).systick_enabled = true
    ∧ (mainBoot env fuel m).serial.recv_requests = []
    ∧ (∀ a, (mainBoot env fuel m).mem a = m a) := by
  have hu1 : (uart_init env serial0).1 = env.setup_err := by
    unfold uart_init
    rw [if_pos h]
  have hu : (uart_init env serial0).1 < 0 := by
    rw [hu1]
    exact h
  unfold mainBoot
  rw [if_pos hu]
  exact ⟨by rw [hu1], rfl, (uart_init_counts env serial0).2.2, fun a => rfl⟩

/-- C7 witness: with uart_setup failing with -3, main exits with -3,
SysTick stays enabled, no receive request is made and the byte at the
loadable region base is untouched. -/
theorem C7_setup_failure_keeps_heartbeat_witness :
    (mainBoot envSetupFail 1 memZero).exit = some (-3)
    ∧ (mainBoot envSetupFail 1 memZero).systick_enabled = true
    ∧ (mainBoot envSetupFail 1 memZero).serial.recv_requests = []
    ∧ (mainBoot envSetupFail 1 memZero).mem USER_START = memZero USER_START := by
  have h := C7_setup_failure_keeps_heartbeat envSetupFail 1 memZero (by decide)
  exact ⟨h.1, h.2.1, h.2.2.1, h.2.2.2 USER_START⟩

/-- C8: a reception request of S bytes with S larger than the maximum
loadable size is rejected with a negative status before any transfer, and
every byte of memory is left unchanged. The request operation is modelled
from the spec (see receive_request): the source caller only ever requests
exactly the maximum size, and the driver implementation is outside src/. -/
theorem C8_oversize_rejected (S : Nat) (mem incoming : Nat → Nat)
    (h : USER_MAX_PROG_SIZE < S) :
    (receive_request S mem incoming).1 < 0
    ∧ (∀ a, (receive_request S mem incoming).2 a = mem a) := by
  unfold receive_request
  rw [if_pos h]
  exact ⟨by norm_num, fun a => rfl⟩

/-- C8 witness: requesting one byte more than the maximum loadable size is
rejected and leaves the byte at the loadable region base unchanged. -/
theorem C8_oversize_rejected_witness :
    (receive_request (USER_MAX_PROG_SIZE + 1) memZero memZero).1 < 0
    ∧ (receive_request (USER_MAX_PROG_SIZE + 1) memZero memZero).2 USER_START
        = memZero USER_START := by
  have h := C8_oversize_rejected (USER_MAX_PROG_SIZE + 1) memZero memZero
    (by decide)
  exact ⟨h.1, h.2 USER_START⟩

/-- C9: on every run of the boot sequence, whatever the driver statuses
and however far the sequence gets, the host never enables the serial
transmitter and never initiates a serial send, at most one receive
initiation is issued, and the self-test stage performs no serial operation
and always returns success. -/
theorem C9_no_transmit_path (env : BootEnv) (fuel : Nat) (m : Nat → Nat) :
    (mainBoot env fuel m).serial.tx_enable_count = 0
    ∧ (mainBoot env fuel m).serial.send_count = 0
    ∧ (mainBoot env fuel m).serial.recv_requests.length ≤ 1
    ∧ (∀ s, run_tests s = (0, s)) := by
  have hcounts := uart_init_counts env serial0
  have hserial := receive_code_serial env fuel
    (run_tests (uart_init env serial0).2).2 m
  have htx : (receive_code env fuel (run_tests (uart_init env serial0).2).2 m).serial.tx_enable_count
      = 0 := by
    rw [hserial]
    exact hcounts.1
  have hsend : (receive_code env fuel (run_tests (uart_init env serial0).2).2 m).serial.send_count
      = 0 := by
    rw [hserial]
    exact hcounts.2.1
  have hreq : (receive_code env fuel (run_tests (uart_init env serial0).2).2 m).serial.recv_requests.length
      ≤ 1 := by
    rw [hserial]
    show ((run_tests (uart_init env serial0).2).2.recv_requests
      ++ [(USER_START, USER_MAX_PROG_SIZE)]).length ≤ 1
    simp only [run_tests]
    rw [hcounts.2.2]
    simp [serial0]
  unfold mainBoot
  by_cases h1 : (uart_init env serial0).1 < 0
  · rw [if_pos h1]
    exact ⟨hcounts.1, hcounts.2.1,
      by rw [hcounts.2.2]; exact Nat.zero_le 1, fun s => rfl⟩
  · rw [if_neg h1]
    have hu : ¬ (run_tests (uart_init env serial0).2).1 < 0 := by
      norm_num [run_tests]
    rw [if_neg hu]
    by_cases h2 : (receive_code env fuel (run_tests (uart_init env serial0).2).2 m).ret
        = none
    · rw [if_pos h2]
      exact ⟨htx, hsend, hreq, fun s => rfl⟩
    · rw [if_neg h2]
      by_cases h3 : ((receive_code env fuel (run_tests (uart_init env serial0).2).2 m).ret.getD 0) < 0
      · rw [if_pos h3]
        exact ⟨htx, hsend, hreq, fun s => rfl⟩
      · rw [if_neg h3]
        exact ⟨htx, hsend, hreq, fun s => rfl⟩

/-- C10: every execution of receive_code issues exactly one receive
request, for exactly USER_MAX_PROG_SIZE (= SRAM_SIZE - USER_OFFS) bytes
into USER_START, never a smaller pre-agreed count; and it returns success
(0) only if the initiation status was non-negative and the completion
predicate was observed true at some poll. -/
theorem C10_receive_requests_max (env : BootEnv) (fuel : Nat)
    (s : SerialState) (m : Nat → Nat) :
    (receive_code env fuel s m).serial.recv_requests =
      s.recv_requests ++ [(USER_START, USER_MAX_PROG_SIZE)]
    ∧ USER_MAX_PROG_SIZE = SRAM_SIZE - USER_OFFS
    ∧ ((receive_code env fuel s m).ret = some 0 →
        0 ≤ env.recv_buffer_err ∧ ∃ i, env.recv_complete i = true) := by
  refine ⟨by rw [receive_code_serial], rfl, ?_⟩
  intro hret
  unfold receive_code at hret
  by_cases h : env.recv_buffer_err < 0
  · rw [if_pos h] at hret
    simp at hret
    exfalso
    omega
  · rw [if_neg h] at hret
    refine ⟨by omega, ?_⟩
    cases hp : poll_recv env.recv_complete fuel 0 with
    | none =>
      rw [hp] at hret
      simp at hret
    | some j =>
      exact ⟨j, poll_recv_some env.recv_complete fuel 0 j hp⟩

/-- C10 witness: with all driver statuses zero and completion observed at
the first poll, the single receive request is for USER_MAX_PROG_SIZE bytes
at USER_START and the completion predicate indeed held at some poll. -/
theorem C10_receive_requests_max_witness :
    (receive_code envOK 1 serial0 memZero).serial.recv_requests =
      [(USER_START, USER_MAX_PROG_SIZE)]
    ∧ (0 ≤ envOK.recv_buffer_err ∧ ∃ i, envOK.recv_complete i = true) := by
  have h := C10_receive_requests_max envOK 1 serial0 memZero
  refine ⟨?_, h.2.2 (by decide)⟩
  have h1 := h.1
  simpa using h1
